import Mathlib

/-!
# Verification of the dossh.app.api OTP lifecycle engine

Shallow embedding of the customer-registration / OTP-verification core:

* `src/flow/register-flow.js` (`userRegister`)
* `src/repo/registration-attempts.js` (`verification`, `resendOtp`)
* `src/repo/registration-tokens.js` (`RegistrationTokensRepo`)
* `src/utils/device-validation.js`, `phone-validation.js`, `email-validation.js`
* the `BlocksRepo.findActive` query

Database rows become Lean structures, the Prisma store becomes a `Db`
record of lists, timestamps are `Nat` milliseconds, and each flow is a
pure function from a request plus the ambient inputs the JS obtains from
the environment (current time, freshly generated UUIDs, the generated
OTP, the success of the external SMS/email dispatch, the success of the
storage transaction) to the updated `Db` paired with an `Except` result.
-/

namespace Dossh

/-- A row of the `devices` table (fields used by the core). -/
structure Device where
  id : String
  deviceFingerprint : String
  isActive : Bool
  deriving Repr, DecidableEq

/-- A row of the `blocks` table. -/
structure Block where
  id : String
  scope : String
  value : String
  reason : String
  source : String
  active : Bool
  expiresAt : Option Nat
  devicesId : String
  deriving Repr, DecidableEq

/-- A row of the `registration_tokens` table. -/
structure Token where
  id : String
  phone : String
  email : String
  token : String
  tokenHash : String
  tokenType : String
  ip : String
  deviceFingerprint : String
  expiresAt : Nat
  status : String
  verifiedAt : Option Nat
  attempts : Nat
  maxAttempts : Nat
  createdAt : Nat
  devicesId : String
  deriving Repr, DecidableEq

/-- A row of the `customers` table (fields used by the core). -/
structure Customer where
  id : String
  phone : String
  email : String
  passwordHash : String
  firstName : String
  lastName : String
  isActive : Bool
  devicesId : String
  deriving Repr, DecidableEq

/-- A row of the `accounts` table (fields used by the core). -/
structure Account where
  id : String
  customerId : String
  accountType : String
  plan : String
  deriving Repr, DecidableEq

/-- A row of the `registration_attempts` table. -/
structure Attempt where
  id : String
  phone : Option String
  email : Option String
  ip : String
  deviceId : String
  action : String
  result : String
  reason : Option String
  devicesId : String
  deriving Repr, DecidableEq

/-- A row of the `sms_events` table. -/
structure SmsEvent where
  id : String
  phone : String
  direction : String
  status : String
  message : String
  devicesId : String
  deriving Repr, DecidableEq

/-- The persistent store: one list per table, rows appended in creation
order. -/
structure Db where
  devices : List Device
  blocks : List Block
  tokens : List Token
  customers : List Customer
  accounts : List Account
  attempts : List Attempt
  smsEvents : List SmsEvent
  deriving Repr, DecidableEq

/-- `COOLDOWN_PERIOD` from `registration-attempts.js`: 2 minutes in ms. -/
def COOLDOWN_PERIOD : Nat := 2 * 60 * 1000

/-- `OTP_EXPIRY_TIME` from `registration-attempts.js` (the register flow
uses the same `5 * 60 * 1000` literal): 5 minutes in ms. -/
def OTP_EXPIRY_TIME : Nat := 5 * 60 * 1000

/-- Modelled from the spec: `maxAttempts` is "a fixed policy constant"
supplied as a column default by the Prisma schema, which is not under
`src/`. Its concrete value does not matter to any property proved here. -/
def MAX_ATTEMPTS : Nat := 5

/-- JS truthiness of an optional string field of a request body:
`undefined` and the empty string are falsy. -/
def truthy : Option String → Bool
  | none => false
  | some s => s != ""

/-- Every typed error the three flows can raise.  The JS wraps them in
`VerificationFlowError` / `OtpFlowError` / `RegistrationFlowError` /
`BlockedError` objects distinguished by message and `details.error`;
the constructors here correspond one-to-one to the throw sites. -/
inductive Err where
  | missingParams
  | deviceInvalid
  | deviceBlocked
  | phoneBlocked
  | emailBlocked
  | tokenNotFoundOrExpired
  | tooManyAttempts
  | invalidOtp
  | tokenNotFound
  | cooldownActive (retryAfter : Nat)
  | notificationFailed
  | transactionFailed
  deriving Repr, DecidableEq

/-- `BlocksRepo.findActive(scope, value)`: first block with the given
scope and value that is `active` and unexpired.  A `none` value models
the JS call receiving `undefined`, in which case Prisma drops the
`value` condition entirely. -/
def findActive (now : Nat) (blocks : List Block) (scope : String)
    (value : Option String) : Option Block :=
  blocks.find? fun b =>
    b.scope == scope
    && (match value with
        | none => true
        | some v => b.value == v)
    && b.active
    && (match b.expiresAt with
        | none => true
        | some e => now < e)

/-- `deviceValidation` from `src/utils/device-validation.js`: fetch the
device, reject missing/inactive ones, then reject an active
device-scope block; otherwise return the device record. -/
def deviceValidation (now : Nat) (db : Db) (deviceId : String) :
    Except Err Device :=
  match db.devices.find? (fun d => d.id == deviceId) with
  | none => .error .deviceInvalid
  | some d =>
    if !d.isActive then .error .deviceInvalid
    else
      match findActive now db.blocks "device" (some deviceId) with
      | some _ => .error .deviceBlocked
      | none => .ok d

/-- `phoneValidation` from `src/utils/phone-validation.js`. -/
def phoneValidation (now : Nat) (db : Db) (phone : Option String) :
    Except Err Unit :=
  match findActive now db.blocks "phone" phone with
  | some _ => .error .phoneBlocked
  | none => .ok ()

/-- `emailValidation` from `src/utils/email-validation.js`. -/
def emailValidation (now : Nat) (db : Db) (email : Option String) :
    Except Err Unit :=
  match findActive now db.blocks "email" email with
  | some _ => .error .emailBlocked
  | none => .ok ()

/-- The `where` predicate of `RegistrationTokensRepo.findActiveToken`:
status pending, `verifiedAt` null, unexpired, matching device, and the
phone/email filters applied only when the corresponding request field is
truthy (the JS spreads `...(phone && { phone })`). -/
def activeTokenMatch (now : Nat) (phone email : Option String)
    (deviceId : String) (t : Token) : Bool :=
  t.status == "pending"
  && t.verifiedAt == none
  && now < t.expiresAt
  && t.devicesId == deviceId
  && (match phone with
      | none => true
      | some p => if p == "" then true else t.phone == p)
  && (match email with
      | none => true
      | some e => if e == "" then true else t.email == e)

/-- Prisma `findFirst` with `orderBy: { createdAt: "desc" }`: the
matching row with the greatest `createdAt`. -/
def latestCreated (p : Token → Bool) (ts : List Token) : Option Token :=
  ts.foldl
    (fun acc t =>
      if p t then
        match acc with
        | none => some t
        | some u => if u.createdAt < t.createdAt then some t else some u
      else acc)
    none

/-- `RegistrationTokensRepo.findActiveToken`. -/
def findActiveToken (now : Nat) (tokens : List Token)
    (phone email : Option String) (deviceId : String) : Option Token :=
  latestCreated (activeTokenMatch now phone email deviceId) tokens

/-- `RegistrationTokensRepo.findByCustomerAndDetails`: latest pending
token exactly matching phone, email and device. -/
def findByCustomerAndDetails (tokens : List Token)
    (phone email deviceId : String) : Option Token :=
  latestCreated
    (fun t => t.phone == phone && t.email == email
      && t.devicesId == deviceId && t.status == "pending")
    tokens

/-! ## The verify flow (`verification` in `registration-attempts.js`) -/

/-- Body of a verify request (`VerifyOtpBody` plus `request.ip`). -/
structure VerifyReq where
  phone : Option String
  email : Option String
  otp : String
  deviceId : String
  customerId : String
  ip : String
  deriving Repr, DecidableEq

/-- The `randomUUID()` values the verify flow draws, one per creation
site. -/
structure VerifyIds where
  blockId : String
  failAttemptId : String
  accountId : String
  successAttemptId : String
  deriving Repr, DecidableEq

/-- Success payload of the verify flow (the JWT access token itself is
produced by the external `generateAccessToken` collaborator from the
returned customer id). -/
structure VerifyOk where
  customerId : String
  expiresIn : Nat
  deriving Repr, DecidableEq

/-- The guard `if (!otp || !deviceId || (!phone && !email))` at the top
of `verification` (JS truthiness: empty strings count as missing). -/
def missingVerifyParams (req : VerifyReq) : Bool :=
  req.otp == "" || req.deviceId == ""
    || (!truthy req.phone && !truthy req.email)

/-- The `blocks` row created by the max-attempts path.  The JS passes no
`active` / `expiresAt`; modelled from the spec, the schema default (the
Prisma schema is not under `src/`) makes the block `active` with no
expiry — the spec's Block invariant and the repository's end-to-end test
for the max-attempts path both rely on the auto-created block being
active. -/
def maxAttemptsBlock (blockId deviceId : String) : Block :=
  { id := blockId
    scope := "device"
    value := deviceId
    reason := "OTP max attempts exceeded"
    source := "registration"
    active := true
    expiresAt := none
    devicesId := deviceId }

/-- The failed `registration_attempts` row written on an OTP mismatch. -/
def invalidOtpAttempt (attemptId : String) (req : VerifyReq) : Attempt :=
  { id := attemptId
    phone := req.phone
    email := req.email
    ip := req.ip
    deviceId := req.deviceId
    action := "verify_otp"
    result := "failed"
    reason := some "Invalid OTP"
    devicesId := req.deviceId }

/-- The success `registration_attempts` row written inside the
activation transaction. -/
def successAttempt (attemptId : String) (req : VerifyReq) : Attempt :=
  { id := attemptId
    phone := req.phone
    email := req.email
    ip := req.ip
    deviceId := req.deviceId
    action := "verify_otp"
    result := "success"
    reason := none
    devicesId := req.deviceId }

/-- The four writes of the activation transaction (`$transaction` in
`verification`): mark the token verified, flip the customer active,
create the default account, record the success attempt. -/
def applyActivation (now : Nat) (ids : VerifyIds) (req : VerifyReq)
    (tokenId : String) (db : Db) : Db :=
  { db with
      tokens := db.tokens.map fun u =>
        if u.id == tokenId then
          { u with verifiedAt := some now, status := "verified" }
        else u
      customers := db.customers.map fun c =>
        if c.id == req.customerId then { c with isActive := true } else c
      accounts := db.accounts ++
        [{ id := ids.accountId
           customerId := req.customerId
           accountType := "EVERYDAY"
           plan := "BASIC" }]
      attempts := db.attempts ++ [successAttempt ids.successAttemptId req] }

/-- `verification` from `src/repo/registration-attempts.js`.

Beyond the request and store, the function takes the ambient inputs the
JS obtains from its environment: the hash collaborator
(`src/utils/crypto.js` is not under `src/`; modelled from the spec as an
arbitrary deterministic string function), the current time, the
`randomUUID()` draws, and `txOk` — whether the storage layer commits the
activation `$transaction`.  Prisma rolls a failed transaction back
entirely and `customers.update` on an absent id raises inside the
transaction, so the model commits the four writes when `txOk` holds and
the customer exists, and otherwise leaves the store untouched and fails.
Every write outside the transaction (the auto-block, the attempts
increment, the failed-attempt row) persists even though the request
errors. -/
def verification (hash : String → String) (now : Nat) (ids : VerifyIds)
    (txOk : Bool) (req : VerifyReq) (db : Db) :
    Db × Except Err VerifyOk :=
  if missingVerifyParams req then (db, .error .missingParams)
  else
    match deviceValidation now db req.deviceId with
    | .error e => (db, .error e)
    | .ok _ =>
      match phoneValidation now db req.phone with
      | .error e => (db, .error e)
      | .ok _ =>
        match emailValidation now db req.email with
        | .error e => (db, .error e)
        | .ok _ =>
          match findActiveToken now db.tokens req.phone req.email
              req.deviceId with
          | none => (db, .error .tokenNotFoundOrExpired)
          | some t =>
            if t.attempts ≥ t.maxAttempts then
              ({ db with
                  blocks := db.blocks ++
                    [maxAttemptsBlock ids.blockId req.deviceId] },
               .error .tooManyAttempts)
            else if hash req.otp == t.tokenHash then
              if txOk then
                match db.customers.find?
                    (fun c => c.id == req.customerId) with
                | none => (db, .error .transactionFailed)
                | some _ =>
                  (applyActivation now ids req t.id db,
                   .ok { customerId := req.customerId, expiresIn := 3600 })
              else (db, .error .transactionFailed)
            else
              ({ db with
                  tokens := db.tokens.map fun u =>
                    if u.id == t.id then
                      { u with attempts := u.attempts + 1 }
                    else u
                  attempts := db.attempts ++
                    [invalidOtpAttempt ids.failAttemptId req] },
               .error .invalidOtp)

/-! ## The resend flow (`resendOtp` in `registration-attempts.js`) -/

/-- Body of a resend request (`ResendOtpBody`). -/
structure ResendReq where
  customerId : String
  phone : String
  email : String
  deviceId : String
  deriving Repr, DecidableEq

/-- Success payload of the resend flow. -/
structure ResendOk where
  isNew : Bool
  expiresAt : Nat
  deriving Repr, DecidableEq

/-- In-place rotation performed by `regTokenRepo.updateToken`: same row
(same id), new plaintext/hash, fresh expiry, attempts reset. -/
def rotateToken (hash : String → String) (now : Nat) (newOtp : String)
    (u : Token) : Token :=
  { u with
      token := newOtp
      tokenHash := hash newOtp
      expiresAt := now + OTP_EXPIRY_TIME
      attempts := 0 }

/-- `resendOtp` from `src/repo/registration-attempts.js`.  `smsEventId`
is the `randomUUID()` draw for the `sms_events` row, `dispatchOk`
whether the external SMS/email dispatch succeeds, and `newOtp` the
output of the external `generateOTP()` collaborator. -/
def resendOtp (hash : String → String) (now : Nat) (smsEventId : String)
    (dispatchOk : Bool) (newOtp : String) (req : ResendReq) (db : Db) :
    Db × Except Err ResendOk :=
  match deviceValidation now db req.deviceId with
  | .error e => (db, .error e)
  | .ok _ =>
    match emailValidation now db (some req.email) with
    | .error e => (db, .error e)
    | .ok _ =>
      match phoneValidation now db (some req.phone) with
      | .error e => (db, .error e)
      | .ok _ =>
        match findByCustomerAndDetails db.tokens req.phone req.email
            req.deviceId with
        | none => (db, .error .tokenNotFound)
        | some t =>
          if now - t.createdAt < COOLDOWN_PERIOD then
            (db, .error (.cooldownActive (t.createdAt + COOLDOWN_PERIOD)))
          else if !dispatchOk then (db, .error .notificationFailed)
          else
            ({ db with
                tokens := db.tokens.map fun u =>
                  if u.id == t.id then rotateToken hash now newOtp u
                  else u
                smsEvents := db.smsEvents ++
                  [{ id := smsEventId
                     phone := req.phone
                     direction := "outbound"
                     status := "sent"
                     message := "OTP resent"
                     devicesId := req.deviceId }] },
             .ok { isNew := true, expiresAt := now + OTP_EXPIRY_TIME })

/-! ## The registration flow (`userRegister` in `register-flow.js`) -/

/-- Body of a registration request plus `request.ip`. -/
structure RegisterReq where
  phone : String
  email : String
  deviceId : String
  firstName : String
  lastName : String
  password : String
  ip : String
  deriving Repr, DecidableEq

/-- The `randomUUID()` values the registration flow draws. -/
structure RegisterIds where
  attemptId : String
  tokenId : String
  smsEventId : String
  customerId : String
  deriving Repr, DecidableEq

/-- Success payload of the registration flow. -/
structure RegisterOk where
  success : Bool
  customerId : String
  deriving Repr, DecidableEq

/-- The pending `registration_tokens` row created at registration.  Note
the plaintext `token` field set alongside `tokenHash`.  `attempts = 0`
and `maxAttempts` are the schema column defaults (the Prisma schema is
not under `src/`; modelled from the spec: attempts "starts 0",
`maxAttempts` is the fixed policy constant). -/
def freshToken (hash : String → String) (now : Nat) (tokenId otp : String)
    (req : RegisterReq) (fingerprint : String) : Token :=
  { id := tokenId
    phone := req.phone
    email := req.email
    token := otp
    tokenHash := hash otp
    tokenType := "sms"
    ip := req.ip
    deviceFingerprint := fingerprint
    expiresAt := now + OTP_EXPIRY_TIME
    status := "pending"
    verifiedAt := none
    attempts := 0
    maxAttempts := MAX_ATTEMPTS
    createdAt := now
    devicesId := req.deviceId }

/-- `userRegister` from `src/flow/register-flow.js`.  `otp` is the
output of the external `generateOTP()`, `smsOk` / `emailOk` whether the
two external dispatch calls succeed.  The flow validates the device
(only — no phone/email blocklist check appears in this path), dispatches
the OTP before any database write, and on dispatch success commits the
four creates in one transaction. -/
def userRegister (hash : String → String) (now : Nat) (ids : RegisterIds)
    (smsOk emailOk : Bool) (otp : String) (req : RegisterReq) (db : Db) :
    Db × Except Err RegisterOk :=
  match deviceValidation now db req.deviceId with
  | .error e => (db, .error e)
  | .ok dev =>
    if !(smsOk && emailOk) then (db, .error .notificationFailed)
    else
      ({ db with
          attempts := db.attempts ++
            [{ id := ids.attemptId
               phone := some req.phone
               email := some req.email
               ip := req.ip
               deviceId := req.deviceId
               action := "send_token"
               result := "initiated"
               reason := none
               devicesId := req.deviceId }]
          tokens := db.tokens ++
            [freshToken hash now ids.tokenId otp req dev.deviceFingerprint]
          smsEvents := db.smsEvents ++
            [{ id := ids.smsEventId
               phone := req.phone
               direction := "outbound"
               status := "sent"
               message := "OTP sent"
               devicesId := req.deviceId }]
          customers := db.customers ++
            [{ id := ids.customerId
               phone := req.phone
               email := req.email
               passwordHash := hash req.password
               firstName := req.firstName
               lastName := req.lastName
               isActive := false
               devicesId := req.deviceId }] },
       .ok { success := true, customerId := ids.customerId })

/-! ## Concrete fixtures

Closed values used by the witness theorems and counterexamples. -/

/-- Modelled from the spec: `hash` (`src/utils/crypto.js` is not under
`src/`) is a deterministic one-way string function; any concrete
function works for evaluating the flows at closed inputs. -/
def hashModel : String → String := fun s => String.append "#" s

def dev0 : Device := { id := "d1", deviceFingerprint := "fp", isActive := true }

def tok0 : Token :=
  { id := "t1", phone := "p1", email := "e1", token := "111111",
    tokenHash := hashModel "111111", tokenType := "sms", ip := "ip",
    deviceFingerprint := "fp", expiresAt := 400000, status := "pending",
    verifiedAt := none, attempts := 0, maxAttempts := 5, createdAt := 0,
    devicesId := "d1" }

/-- A customer whose phone and email differ from the token's: the verify
flow nevertheless activates it (C3). -/
def cust0 : Customer :=
  { id := "c1", phone := "p9", email := "e9", passwordHash := "pw",
    firstName := "A", lastName := "B", isActive := false, devicesId := "d1" }

def db0 : Db :=
  { devices := [dev0], blocks := [], tokens := [tok0], customers := [cust0],
    accounts := [], attempts := [], smsEvents := [] }

def vids0 : VerifyIds :=
  { blockId := "b1", failAttemptId := "fa1", accountId := "a1",
    successAttemptId := "sa1" }

def vreq0 : VerifyReq :=
  { phone := some "p1", email := some "e1", otp := "111111",
    deviceId := "d1", customerId := "c1", ip := "ip" }

def rreq0 : ResendReq :=
  { customerId := "c1", phone := "p1", email := "e1", deviceId := "d1" }

def greq0 : RegisterReq :=
  { phone := "p1", email := "e1", deviceId := "d1", firstName := "A",
    lastName := "B", password := "pw", ip := "ip" }

def gids0 : RegisterIds :=
  { attemptId := "ra1", tokenId := "t9", smsEventId := "s9",
    customerId := "c9" }

def dbEmpty : Db :=
  { devices := [dev0], blocks := [], tokens := [], customers := [],
    accounts := [], attempts := [], smsEvents := [] }

/-- An active phone-scope block on `greq0`/`vreq0`'s phone. -/
def phoneBlock : Block :=
  { id := "pb", scope := "phone", value := "p1", reason := "abuse",
    source := "moderation", active := true, expiresAt := none,
    devicesId := "d1" }

/-- An active device-scope block on the fixture device. -/
def deviceBlock0 : Block :=
  { id := "db1", scope := "device", value := "d1", reason := "abuse",
    source := "moderation", active := true, expiresAt := none,
    devicesId := "d1" }

/-- The fixture token with its attempt budget exhausted. -/
def tokMax : Token := { tok0 with attempts := 5 }

/-- The fixture store holding `tokMax`. -/
def dbMax : Db := { db0 with tokens := [tokMax] }

/-! ## Helper definitions and lemmas -/

/-- Every token's attempt counter is within its limit. -/
def tokensBounded (db : Db) : Prop :=
  ∀ u ∈ db.tokens, u.attempts ≤ u.maxAttempts

theorem latestCreated_pick {p : Token → Bool} {t : Token} :
    ∀ (ts : List Token) (acc : Option Token),
      (ts.foldl
        (fun acc u =>
          if p u then
            match acc with
            | none => some u
            | some v => if v.createdAt < u.createdAt then some u else some v
          else acc)
        acc = some t) →
      acc = some t ∨ (t ∈ ts ∧ p t = true) := by
  intro ts
  induction ts with
  | nil => intro acc h; exact Or.inl h
  | cons a ts ih =>
    intro acc h
    rcases ih _ h with hstep | hmem
    · by_cases hpa : p a
      · simp only [hpa, if_true] at hstep
        cases acc with
        | none =>
          simp only at hstep
          obtain rfl := Option.some_inj.mp hstep
          exact Or.inr ⟨List.mem_cons_self a ts, hpa⟩
        | some v =>
          simp only at hstep
          by_cases hlt : v.createdAt < a.createdAt
          · simp only [hlt, if_true] at hstep
            obtain rfl := Option.some_inj.mp hstep
            exact Or.inr ⟨List.mem_cons_self a ts, hpa⟩
          · simp only [hlt, if_false] at hstep
            exact Or.inl hstep
      · simp only [hpa, if_false] at hstep
        exact Or.inl hstep
    · exact Or.inr ⟨List.mem_cons_of_mem _ hmem.1, hmem.2⟩

/-- A token returned by a `latestCreated` lookup is a matching member of
the table. -/
theorem latestCreated_mem {p : Token → Bool} {ts : List Token} {t : Token}
    (h : latestCreated p ts = some t) : t ∈ ts ∧ p t = true := by
  rcases latestCreated_pick ts none h with hnone | hmem
  · cases hnone
  · exact hmem

/-- The registration flow preserves the attempt bound: the token it
creates starts at `attempts = 0`. -/
theorem tokensBounded_userRegister
    (hash : String → String) (now : Nat) (ids : RegisterIds)
    (smsOk emailOk : Bool) (otp : String) (req : RegisterReq) (db : Db)
    (hb : tokensBounded db) :
    tokensBounded (userRegister hash now ids smsOk emailOk otp req db).1 := by
  unfold userRegister
  cases hdv : deviceValidation now db req.deviceId with
  | error e => exact hb
  | ok dev =>
    by_cases hd : !(smsOk && emailOk)
    · simp only [hd, if_true]; exact hb
    · simp only [hd, Bool.false_eq_true, if_false]
      intro u hu
      simp only [List.mem_append, List.mem_singleton] at hu
      rcases hu with hu | rfl
      · exact hb u hu
      · simp [freshToken]

/-- The resend flow preserves the attempt bound: rotation resets
`attempts` to 0. -/
theorem tokensBounded_resendOtp
    (hash : String → String) (now : Nat) (sid : String)
    (dispatchOk : Bool) (newOtp : String) (req : ResendReq) (db : Db)
    (hb : tokensBounded db) :
    tokensBounded (resendOtp hash now sid dispatchOk newOtp req db).1 := by
  unfold resendOtp
  cases hdv : deviceValidation now db req.deviceId with
  | error e => exact hb
  | ok dev =>
    cases hev : emailValidation now db (some req.email) with
    | error e => exact hb
    | ok u1 =>
      cases hpv : phoneValidation now db (some req.phone) with
      | error e => exact hb
      | ok u2 =>
        cases htk : findByCustomerAndDetails db.tokens req.phone req.email
            req.deviceId with
        | none => exact hb
        | some t =>
          by_cases hcd : now - t.createdAt < COOLDOWN_PERIOD
          · simp only [if_pos hcd]; exact hb
          · simp only [if_neg hcd]
            by_cases hdp : !dispatchOk
            · simp only [hdp, if_true]; exact hb
            · simp only [hdp, Bool.false_eq_true, if_false]
              intro u hu
              simp only [List.mem_map] at hu
              obtain ⟨v, hv, rfl⟩ := hu
              by_cases hid : (v.id == t.id) = true
              · simp only [hid, if_true, rotateToken]
                exact Nat.zero_le _
              · simp only [hid, Bool.false_eq_true, if_false]
                exact hb v hv

/-- The verify flow preserves the attempt bound: the increment runs only
when `attempts < maxAttempts` (token primary keys are unique, which the
list model states as `Nodup` of the ids). -/
theorem tokensBounded_verification
    (hash : String → String) (now : Nat) (ids : VerifyIds) (txOk : Bool)
    (req : VerifyReq) (db : Db)
    (hnd : (db.tokens.map Token.id).Nodup)
    (hb : tokensBounded db) :
    tokensBounded (verification hash now ids txOk req db).1 := by
  unfold verification
  by_cases hmv : missingVerifyParams req
  · simp only [hmv, if_true]; exact hb
  · simp only [hmv, Bool.false_eq_true, if_false]
    cases hdv : deviceValidation now db req.deviceId with
    | error e => exact hb
    | ok d =>
      cases hpv : phoneValidation now db req.phone with
      | error e => exact hb
      | ok u1 =>
        cases hev : emailValidation now db req.email with
        | error e => exact hb
        | ok u2 =>
          cases htok : findActiveToken now db.tokens req.phone req.email
              req.deviceId with
          | none => exact hb
          | some t =>
            by_cases hmax : t.attempts ≥ t.maxAttempts
            · simp only [if_pos hmax]; exact hb
            · simp only [if_neg hmax]
              by_cases hh : (hash req.otp == t.tokenHash) = true
              · simp only [hh, if_true]
                cases txOk with
                | false => simp only [Bool.false_eq_true, if_false]; exact hb
                | true =>
                  simp only [if_true]
                  cases hcf : db.customers.find?
                      (fun c => c.id == req.customerId) with
                  | none => exact hb
                  | some c =>
                    intro u hu
                    simp only [applyActivation, List.mem_map] at hu
                    obtain ⟨v, hv, rfl⟩ := hu
                    by_cases hid : (v.id == t.id) = true
                    · simp only [hid, if_true]
                      exact hb v hv
                    · simp only [hid, Bool.false_eq_true, if_false]
                      exact hb v hv
              · simp only [hh, Bool.false_eq_true, if_false]
                intro u hu
                simp only [List.mem_map] at hu
                obtain ⟨v, hv, rfl⟩ := hu
                by_cases hid : (v.id == t.id) = true
                · simp only [hid, if_true]
                  have ht := latestCreated_mem htok
                  have hvt : v = t :=
                    List.inj_on_of_nodup_map hnd hv ht.1 (beq_iff_eq.mp hid)
                  subst hvt
                  exact Nat.succ_le_of_lt (Nat.lt_of_not_le hmax)
                · simp only [hid, Bool.false_eq_true, if_false]
                  exact hb v hv

/-- Appending a block of a different scope never changes a
`findActive` lookup. -/
theorem findActive_append_other_scope (now : Nat) (bl : List Block)
    (b : Block) (s : String) (v : Option String)
    (hb : (b.scope == s) = false) :
    findActive now (bl ++ [b]) s v = findActive now bl s v := by
  simp only [findActive, List.find?_append]
  cases h : bl.find? _ with
  | some x => rfl
  | none => simp [hb]

/-- Reduction of `verification` along the all-checks-pass, hash-match
path: the outcome is decided by the transaction alone. -/
theorem verification_success_eq
    (hash : String → String) (now : Nat) (ids : VerifyIds)
    (req : VerifyReq) (db : Db) (d : Device) (t : Token) (c : Customer)
    (hm : missingVerifyParams req = false)
    (hdev : deviceValidation now db req.deviceId = .ok d)
    (hpv : phoneValidation now db req.phone = .ok ())
    (hev : emailValidation now db req.email = .ok ())
    (htok : findActiveToken now db.tokens req.phone req.email req.deviceId
      = some t)
    (hatt : t.attempts < t.maxAttempts)
    (hhash : hash req.otp = t.tokenHash)
    (hcust : db.customers.find? (fun u => u.id == req.customerId) = some c)
    (txOk : Bool) :
    verification hash now ids txOk req db =
      if txOk then
        (applyActivation now ids req t.id db,
         .ok { customerId := req.customerId, expiresIn := 3600 })
      else (db, .error .transactionFailed) := by
  simp only [verification, hm, Bool.false_eq_true, if_false, hdev, hpv,
    hev, htok, hhash, beq_self_eq_true, if_true, hcust,
    ge_iff_le, if_neg (Nat.not_le.mpr hatt)]

/-- A `findActive` miss stays a miss at any later time: block activity
only shrinks as `expiresAt` deadlines pass. -/
theorem findActive_none_mono (now now2 : Nat) (bl : List Block)
    (s : String) (v : Option String) (hle : now ≤ now2)
    (h : findActive now bl s v = none) : findActive now2 bl s v = none := by
  simp only [findActive, List.find?_eq_none] at h ⊢
  intro b hb
  have hb1 := h b hb
  cases hexp : b.expiresAt with
  | none => simpa [hexp] using hb1
  | some e =>
    simp only [hexp] at hb1 ⊢
    intro hcon
    apply hb1
    simp only [Bool.and_eq_true, decide_eq_true_eq] at hcon ⊢
    exact ⟨hcon.1, by omega⟩

/-- A passing phone check keeps passing at any later time on a store
with the same blocks. -/
theorem phoneValidation_ok_mono (now now2 : Nat) (db db2 : Db)
    (ph : Option String) (hle : now ≤ now2)
    (hbl : db2.blocks = db.blocks)
    (h : phoneValidation now db ph = .ok ()) :
    phoneValidation now2 db2 ph = .ok () := by
  unfold phoneValidation at h ⊢
  rw [hbl]
  cases hfa : findActive now db.blocks "phone" ph with
  | some b => rw [hfa] at h; simp at h
  | none => rw [findActive_none_mono now now2 db.blocks "phone" ph hle hfa]

/-- A passing email check keeps passing at any later time on a store
with the same blocks. -/
theorem emailValidation_ok_mono (now now2 : Nat) (db db2 : Db)
    (em : Option String) (hle : now ≤ now2)
    (hbl : db2.blocks = db.blocks)
    (h : emailValidation now db em = .ok ()) :
    emailValidation now2 db2 em = .ok () := by
  unfold emailValidation at h ⊢
  rw [hbl]
  cases hfa : findActive now db.blocks "email" em with
  | some b => rw [hfa] at h; simp at h
  | none => rw [findActive_none_mono now now2 db.blocks "email" em hle hfa]

/-- A passing device validation keeps passing at any later time on a
store with the same devices and blocks. -/
theorem deviceValidation_ok_mono (now now2 : Nat) (db db2 : Db)
    (i : String) (d : Device) (hle : now ≤ now2)
    (hdevs : db2.devices = db.devices) (hbl : db2.blocks = db.blocks)
    (h : deviceValidation now db i = .ok d) :
    deviceValidation now2 db2 i = .ok d := by
  unfold deviceValidation at h ⊢
  rw [hdevs, hbl]
  cases hf : db.devices.find? (fun dd => dd.id == i) with
  | none => rw [hf] at h; simp at h
  | some dd =>
    rw [hf] at h
    dsimp only at h ⊢
    by_cases hact : (!dd.isActive) = true
    · rw [if_pos hact] at h; simp at h
    · rw [if_neg hact] at h ⊢
      cases hfa : findActive now db.blocks "device" (some i) with
      | some b => rw [hfa] at h; simp at h
      | none =>
        rw [hfa] at h
        rw [findActive_none_mono now now2 db.blocks "device" (some i) hle
          hfa]
        exact h

/-- A `latestCreated` lookup over a table with no matching row returns
nothing. -/
theorem latestCreated_none {p : Token → Bool} :
    ∀ ts : List Token, (∀ u ∈ ts, p u = false) → latestCreated p ts = none := by
  have hgo : ∀ (ts : List Token), (∀ u ∈ ts, p u = false) →
      ts.foldl
        (fun acc u =>
          if p u then
            match acc with
            | none => some u
            | some v => if v.createdAt < u.createdAt then some u else some v
          else acc)
        none = none := by
    intro ts
    induction ts with
    | nil => intro h; rfl
    | cons a ts ih =>
      intro h
      simp only [List.foldl_cons, h a (List.mem_cons_self a ts),
        Bool.false_eq_true, if_false]
      exact ih fun u hu => h u (List.mem_cons_of_mem _ hu)
  intro ts h
  exact hgo ts h

/-- A token matching the active-token predicate at a later time also
matched at any earlier time (only the expiry test mentions the clock). -/
theorem activeTokenMatch_mono (now now2 : Nat) (phone email : Option String)
    (deviceId : String) (u : Token) (hle : now ≤ now2)
    (h : activeTokenMatch now2 phone email deviceId u = true) :
    activeTokenMatch now phone email deviceId u = true := by
  simp only [activeTokenMatch, Bool.and_eq_true, decide_eq_true_eq] at h ⊢
  exact ⟨⟨⟨⟨⟨h.1.1.1.1.1, h.1.1.1.1.2⟩, by omega⟩, h.1.1.2⟩, h.1.2⟩, h.2⟩

/-- Reduction of `resendOtp` once the validators pass and the token
lookup succeeds: the outcome is decided by the cooldown check and the
dispatch. -/
theorem resendOtp_reduce
    (hash : String → String) (now : Nat) (sid : String)
    (dispatchOk : Bool) (newOtp : String) (req : ResendReq) (db : Db)
    (d : Device) (t : Token)
    (hdev : deviceValidation now db req.deviceId = .ok d)
    (hev : emailValidation now db (some req.email) = .ok ())
    (hpv : phoneValidation now db (some req.phone) = .ok ())
    (htok : findByCustomerAndDetails db.tokens req.phone req.email
      req.deviceId = some t) :
    resendOtp hash now sid dispatchOk newOtp req db =
      if now - t.createdAt < COOLDOWN_PERIOD then
        (db, .error (.cooldownActive (t.createdAt + COOLDOWN_PERIOD)))
      else if !dispatchOk then (db, .error .notificationFailed)
      else
        ({ db with
            tokens := db.tokens.map fun u =>
              if u.id == t.id then rotateToken hash now newOtp u else u,
            smsEvents := db.smsEvents ++
              [{ id := sid
                 phone := req.phone
                 direction := "outbound"
                 status := "sent"
                 message := "OTP resent"
                 devicesId := req.deviceId }] },
         .ok { isNew := true, expiresAt := now + OTP_EXPIRY_TIME }) := by
  simp only [resendOtp, hdev, hev, hpv, htok]

/-- The verify flow sees the submitted code only through its hash (and
its JS truthiness): two codes with equal hash and equal emptiness give
identical results on every store. -/
theorem verification_otp_extensional
    (hash : String → String) (now : Nat) (ids : VerifyIds) (txOk : Bool)
    (req : VerifyReq) (db : Db) (otp2 : String)
    (hh : hash req.otp = hash otp2)
    (he : (req.otp == "") = (otp2 == "")) :
    verification hash now ids txOk req db =
      verification hash now ids txOk { req with otp := otp2 } db := by
  have h1 : missingVerifyParams { req with otp := otp2 } =
      missingVerifyParams req := by
    simp only [missingVerifyParams]
    rw [← he]
  simp only [verification, h1, ← hh]
  rfl

/-! ## Claim theorems -/

/-- **C1.** When a verify request's submitted code hashes to the active
token's `tokenHash`, the engine performs one atomic transaction marking
the token `status = "verified"` with `verifiedAt` set, setting the
customer `isActive := true`, creating one Account
(`accountType = "EVERYDAY"`, `plan = "BASIC"`) linked to the customer,
and recording a RegistrationAttempt (`action = "verify_otp"`,
`result = "success"`); if the transaction fails, none of these four
writes persists — the store is returned exactly as it was. -/
theorem verification_success_atomic_txn
    (hash : String → String) (now : Nat) (ids : VerifyIds)
    (req : VerifyReq) (db : Db) (d : Device) (t : Token) (c : Customer)
    (hm : missingVerifyParams req = false)
    (hdev : deviceValidation now db req.deviceId = .ok d)
    (hpv : phoneValidation now db req.phone = .ok ())
    (hev : emailValidation now db req.email = .ok ())
    (htok : findActiveToken now db.tokens req.phone req.email req.deviceId
      = some t)
    (hatt : t.attempts < t.maxAttempts)
    (hhash : hash req.otp = t.tokenHash)
    (hcust : db.customers.find? (fun u => u.id == req.customerId) = some c) :
    (verification hash now ids true req db =
        (applyActivation now ids req t.id db,
         .ok { customerId := req.customerId, expiresIn := 3600 }))
    ∧ (∀ u ∈ (applyActivation now ids req t.id db).tokens,
        u.id = t.id → u.status = "verified" ∧ u.verifiedAt = some now)
    ∧ (∀ u ∈ (applyActivation now ids req t.id db).customers,
        u.id = req.customerId → u.isActive = true)
    ∧ ((applyActivation now ids req t.id db).accounts =
        db.accounts ++
          [{ id := ids.accountId, customerId := req.customerId,
             accountType := "EVERYDAY", plan := "BASIC" }])
    ∧ ((applyActivation now ids req t.id db).attempts =
        db.attempts ++ [successAttempt ids.successAttemptId req])
    ∧ verification hash now ids false req db =
        (db, .error .transactionFailed) := by
  have hred : ∀ txOk : Bool, verification hash now ids txOk req db =
      if txOk then
        (applyActivation now ids req t.id db,
         .ok { customerId := req.customerId, expiresIn := 3600 })
      else (db, .error .transactionFailed) :=
    verification_success_eq hash now ids req db d t c hm hdev hpv hev htok
      hatt hhash hcust
  refine ⟨by simpa using hred true, ?_, ?_, ?_, ?_, by simpa using hred false⟩
  · intro u hu hid
    simp only [applyActivation, List.mem_map] at hu
    obtain ⟨v, _, rfl⟩ := hu
    by_cases h : v.id = t.id
    · simp [h]
    · simp [beq_iff_eq, h] at hid ⊢
  · intro u hu hid
    simp only [applyActivation, List.mem_map] at hu
    obtain ⟨v, _, rfl⟩ := hu
    by_cases h : v.id = req.customerId
    · simp [h]
    · simp [beq_iff_eq, h] at hid ⊢
  · simp [applyActivation]
  · simp [applyActivation]

/-- Closed instantiation of `verification_success_atomic_txn` at the
concrete fixture store. -/
theorem verification_success_atomic_txn_witness :
    (verification hashModel 100000 vids0 true vreq0 db0 =
        (applyActivation 100000 vids0 vreq0 tok0.id db0,
         .ok { customerId := vreq0.customerId, expiresIn := 3600 }))
    ∧ ((applyActivation 100000 vids0 vreq0 tok0.id db0).accounts =
        db0.accounts ++
          [{ id := vids0.accountId, customerId := vreq0.customerId,
             accountType := "EVERYDAY", plan := "BASIC" }])
    ∧ ((applyActivation 100000 vids0 vreq0 tok0.id db0).attempts =
        db0.attempts ++ [successAttempt vids0.successAttemptId vreq0])
    ∧ verification hashModel 100000 vids0 false vreq0 db0 =
        (db0, .error .transactionFailed) := by
  have h := verification_success_atomic_txn hashModel 100000 vids0 vreq0
    db0 dev0 tok0 cust0 (by decide) rfl rfl rfl (by decide) (by decide)
    rfl (by decide)
  exact ⟨h.1, h.2.2.2.1, h.2.2.2.2.1, h.2.2.2.2.2⟩

/-- **C2.** On a verify request whose looked-up token has
`attempts ≥ maxAttempts`, the engine creates a Block (`scope = "device"`,
`value = deviceId`, reason "OTP max attempts exceeded") and fails
`TooManyAttempts`; the outcome is the same for every hash function (the
check precedes hashing), and the token table is returned unchanged, so
the request increments no attempt counter.  Moreover the created block
is an active device block for the request's device, and all three flows
preserve the invariant that no token's `attempts` ever exceeds its
`maxAttempts` — so `attempts` can never exceed `maxAttempts` without the
auto-block path having fired. -/
theorem verification_max_attempts_autoblock
    (now : Nat) (req : VerifyReq) (db : Db) (d : Device) (t : Token)
    (hm : missingVerifyParams req = false)
    (hdev : deviceValidation now db req.deviceId = .ok d)
    (hpv : phoneValidation now db req.phone = .ok ())
    (hev : emailValidation now db req.email = .ok ())
    (htok : findActiveToken now db.tokens req.phone req.email req.deviceId
      = some t)
    (hmax : t.attempts ≥ t.maxAttempts) :
    (∀ (hash : String → String) (ids : VerifyIds) (txOk : Bool),
      verification hash now ids txOk req db =
        ({ db with blocks := db.blocks ++
            [maxAttemptsBlock ids.blockId req.deviceId] },
         .error .tooManyAttempts))
    ∧ (∀ bid : String,
        (findActive now (db.blocks ++ [maxAttemptsBlock bid req.deviceId])
          "device" (some req.deviceId)).isSome = true)
    ∧ (∀ (hash : String → String) (now2 : Nat) (ids2 : VerifyIds)
        (txOk2 : Bool) (req2 : VerifyReq) (db2 : Db),
        (db2.tokens.map Token.id).Nodup → tokensBounded db2 →
        tokensBounded (verification hash now2 ids2 txOk2 req2 db2).1)
    ∧ (∀ (hash : String → String) (now2 : Nat) (sid : String) (ok2 : Bool)
        (otp2 : String) (req2 : ResendReq) (db2 : Db), tokensBounded db2 →
        tokensBounded (resendOtp hash now2 sid ok2 otp2 req2 db2).1)
    ∧ (∀ (hash : String → String) (now2 : Nat) (ids2 : RegisterIds)
        (sOk eOk : Bool) (otp2 : String) (req2 : RegisterReq) (db2 : Db),
        tokensBounded db2 →
        tokensBounded (userRegister hash now2 ids2 sOk eOk otp2 req2 db2).1) := by
  refine ⟨?_, ?_,
    fun hash now2 ids2 txOk2 req2 db2 hnd hb =>
      tokensBounded_verification hash now2 ids2 txOk2 req2 db2 hnd hb,
    fun hash now2 sid ok2 otp2 req2 db2 hb =>
      tokensBounded_resendOtp hash now2 sid ok2 otp2 req2 db2 hb,
    fun hash now2 ids2 sOk eOk otp2 req2 db2 hb =>
      tokensBounded_userRegister hash now2 ids2 sOk eOk otp2 req2 db2 hb⟩
  · intro hash ids txOk
    simp only [verification, hm, Bool.false_eq_true, if_false, hdev, hpv,
      hev, htok, if_pos hmax]
  · intro bid
    simp [findActive, List.find?_append, maxAttemptsBlock]

/-- Closed instantiation of `verification_max_attempts_autoblock` at a
store whose token has exhausted its attempts. -/
theorem verification_max_attempts_autoblock_witness :
    (verification hashModel 100000 vids0 true vreq0 dbMax =
        ({ dbMax with
            blocks := dbMax.blocks ++
              [maxAttemptsBlock vids0.blockId vreq0.deviceId] },
         .error .tooManyAttempts))
    ∧ ((findActive 100000
          (dbMax.blocks ++ [maxAttemptsBlock "x1" vreq0.deviceId])
          "device" (some vreq0.deviceId)).isSome = true)
    ∧ tokensBounded (verification hashModel 100000 vids0 true vreq0 db0).1
    ∧ tokensBounded (resendOtp hashModel 130000 "s1" true "654321" rreq0
        db0).1
    ∧ tokensBounded (userRegister hashModel 0 gids0 true true "123456"
        greq0 dbEmpty).1 := by
  have h := verification_max_attempts_autoblock 100000 vreq0 dbMax dev0
    tokMax (by decide) rfl rfl rfl (by decide) (by decide)
  exact ⟨h.1 hashModel vids0 true, h.2.1 "x1",
    h.2.2.1 hashModel 100000 vids0 true vreq0 db0 (by decide)
      (by unfold tokensBounded; decide),
    h.2.2.2.1 hashModel 130000 "s1" true "654321" rreq0 db0
      (by unfold tokensBounded; decide),
    h.2.2.2.2 hashModel 0 gids0 true true "123456" greq0 dbEmpty
      (by unfold tokensBounded; decide)⟩

/-- **C3.** On a verify request that passes the validators, token
lookup, attempt limit and hash comparison, the customer the activation
transaction flips to `isActive = true` is exactly the one identified by
the request body's `customerId` — the hypotheses place no constraint
whatsoever relating `customerId` to the token's phone or email or to the
customer created at registration, so any existing customer id supplied
in the body is activated by a valid code for an unrelated registration. -/
theorem verification_activates_requested_customer
    (hash : String → String) (now : Nat) (ids : VerifyIds)
    (req : VerifyReq) (db : Db) (d : Device) (t : Token) (c : Customer)
    (hm : missingVerifyParams req = false)
    (hdev : deviceValidation now db req.deviceId = .ok d)
    (hpv : phoneValidation now db req.phone = .ok ())
    (hev : emailValidation now db req.email = .ok ())
    (htok : findActiveToken now db.tokens req.phone req.email req.deviceId
      = some t)
    (hatt : t.attempts < t.maxAttempts)
    (hhash : hash req.otp = t.tokenHash)
    (hcust : db.customers.find? (fun u => u.id == req.customerId) = some c) :
    ((verification hash now ids true req db).2 =
        .ok { customerId := req.customerId, expiresIn := 3600 })
    ∧ ((verification hash now ids true req db).1.customers =
        db.customers.map fun u =>
          if u.id == req.customerId then { u with isActive := true }
          else u) := by
  have hred := verification_success_eq hash now ids req db d t c hm hdev
    hpv hev htok hatt hhash hcust true
  simp only [hred, if_true]
  simp [applyActivation]

/-- Closed instantiation of `verification_activates_requested_customer`:
the fixture customer `cust0` has phone `"p9"` and email `"e9"`, while
the token is for `"p1"` / `"e1"` — the unrelated customer is activated
anyway. -/
theorem verification_activates_requested_customer_witness :
    (((verification hashModel 100000 vids0 true vreq0 db0).2 =
        .ok { customerId := vreq0.customerId, expiresIn := 3600 })
    ∧ ((verification hashModel 100000 vids0 true vreq0 db0).1.customers =
        db0.customers.map fun u =>
          if u.id == vreq0.customerId then { u with isActive := true }
          else u))
    ∧ cust0.id = vreq0.customerId
    ∧ cust0.phone ≠ tok0.phone ∧ cust0.email ≠ tok0.email :=
  ⟨verification_activates_requested_customer hashModel 100000 vids0 vreq0
      db0 dev0 tok0 cust0 (by decide) rfl rfl rfl (by decide) (by decide)
      rfl (by decide),
    by decide, by decide, by decide⟩

/-- **C4 counterexample.** A registration request whose phone carries an
active phone-scope block nevertheless succeeds and creates the token
row: the registration path consults the blocklist for the device scope
only, so the claim that phone and email are checked — and that such a
block aborts the operation — is false on the code. -/
theorem userRegister_phone_block_ignored :
    ((findActive 0 [phoneBlock] "phone" (some greq0.phone)).isSome = true)
    ∧ ((userRegister hashModel 0 gids0 true true "123456" greq0
        { dbEmpty with blocks := [phoneBlock] }).2 =
        .ok { success := true, customerId := "c9" })
    ∧ ((userRegister hashModel 0 gids0 true true "123456" greq0
        { dbEmpty with blocks := [phoneBlock] }).1.tokens.length = 1) :=
  ⟨by decide, rfl, by decide⟩

/-- **C4 amended.** On every registration request the Device Validator
runs before any record is created: a missing or inactive device, or an
active device-scope block, aborts the operation with the corresponding
Blocked error and leaves the store untouched.  The phone and email
blocklist scopes are not consulted by the registration path — adding a
block of any non-device scope never changes a registration's outcome. -/
theorem userRegister_device_gate
    (hash : String → String) (now : Nat) (ids : RegisterIds)
    (smsOk emailOk : Bool) (otp : String) (req : RegisterReq) (db : Db) :
    (∀ e, deviceValidation now db req.deviceId = .error e →
      userRegister hash now ids smsOk emailOk otp req db = (db, .error e))
    ∧ (∀ b : Block, b.scope ≠ "device" →
        (userRegister hash now ids smsOk emailOk otp req
          { db with blocks := db.blocks ++ [b] }).2 =
        (userRegister hash now ids smsOk emailOk otp req db).2) := by
  constructor
  · intro e h
    simp only [userRegister, h]
  · intro b hb
    have hfa : findActive now (db.blocks ++ [b]) "device"
        (some req.deviceId) =
        findActive now db.blocks "device" (some req.deviceId) :=
      findActive_append_other_scope now db.blocks b "device"
        (some req.deviceId) (by simpa using hb)
    have hdv : deviceValidation now { db with blocks := db.blocks ++ [b] }
        req.deviceId = deviceValidation now db req.deviceId := by
      simp only [deviceValidation, hfa]
    cases h : deviceValidation now db req.deviceId with
    | error e => simp only [userRegister, hdv, h]
    | ok dev =>
      simp only [userRegister, hdv, h]
      by_cases hs : !(smsOk && emailOk)
      · simp only [hs, if_true]
      · simp only [hs, Bool.false_eq_true, if_false]

/-- Closed instantiation of `userRegister_device_gate`: an active
device block aborts the registration untouched, while a phone block
leaves the outcome unchanged. -/
theorem userRegister_device_gate_witness :
    (userRegister hashModel 0 gids0 true true "123456" greq0
        { dbEmpty with blocks := [deviceBlock0] } =
      ({ dbEmpty with blocks := [deviceBlock0] }, .error .deviceBlocked))
    ∧ ((userRegister hashModel 0 gids0 true true "123456" greq0
          { dbEmpty with blocks := dbEmpty.blocks ++ [phoneBlock] }).2 =
        (userRegister hashModel 0 gids0 true true "123456" greq0
          dbEmpty).2) :=
  ⟨(userRegister_device_gate hashModel 0 gids0 true true "123456" greq0
      { dbEmpty with blocks := [deviceBlock0] }).1 .deviceBlocked rfl,
   (userRegister_device_gate hashModel 0 gids0 true true "123456" greq0
      dbEmpty).2 phoneBlock (by decide)⟩

/-- **C5 counterexample.** Both the registration creation path and the
resend rotation path write the plaintext OTP into the
`registration_tokens` row's `token` column: the claim that no record
written by these paths contains the plaintext code is false on the
code. -/
theorem plaintext_otp_in_written_records :
    (((userRegister hashModel 0 gids0 true true "123456" greq0
          dbEmpty).1.tokens.map Token.token) = ["123456"])
    ∧ (((resendOtp hashModel 130000 "s1" true "654321" rreq0
          db0).1.tokens.map Token.token) = ["654321"]) :=
  ⟨by decide, by decide⟩

/-- **C5 amended.** The plaintext OTP is only ever *compared* via its
hash — the verify flow's result depends on the submitted code only
through `hash(code)` (and its presence) — but it *is* persisted: the
registration creation path stores the plaintext in the new token row's
`token` field next to `tokenHash`, and the resend rotation path
overwrites the same field with the new plaintext code. -/
theorem otp_compared_by_hash_yet_persisted_plaintext :
    (∀ (hash : String → String) (now : Nat) (ids : VerifyIds)
      (txOk : Bool) (req : VerifyReq) (db : Db) (otp2 : String),
      hash req.otp = hash otp2 → (req.otp == "") = (otp2 == "") →
      verification hash now ids txOk req db =
        verification hash now ids txOk { req with otp := otp2 } db)
    ∧ (∀ (hash : String → String) (now : Nat) (ids : RegisterIds)
        (otp : String) (req : RegisterReq) (db : Db) (d : Device),
        deviceValidation now db req.deviceId = .ok d →
        (userRegister hash now ids true true otp req db).1.tokens =
          db.tokens ++
            [freshToken hash now ids.tokenId otp req d.deviceFingerprint])
    ∧ (∀ (hash : String → String) (now : Nat) (tid otp : String)
        (req : RegisterReq) (fp : String),
        (freshToken hash now tid otp req fp).token = otp
        ∧ (freshToken hash now tid otp req fp).tokenHash = hash otp)
    ∧ (∀ (hash : String → String) (now : Nat) (newOtp : String)
        (u : Token),
        (rotateToken hash now newOtp u).token = newOtp
        ∧ (rotateToken hash now newOtp u).tokenHash = hash newOtp)
    ∧ (∀ (hash : String → String) (now : Nat) (sid newOtp : String)
        (req : ResendReq) (db : Db) (d : Device) (t : Token),
        deviceValidation now db req.deviceId = .ok d →
        emailValidation now db (some req.email) = .ok () →
        phoneValidation now db (some req.phone) = .ok () →
        findByCustomerAndDetails db.tokens req.phone req.email
          req.deviceId = some t →
        ¬(now - t.createdAt < COOLDOWN_PERIOD) →
        (resendOtp hash now sid true newOtp req db).1.tokens =
          db.tokens.map fun u =>
            if u.id == t.id then rotateToken hash now newOtp u else u) := by
  refine ⟨fun hash now ids txOk req db otp2 hh he =>
      verification_otp_extensional hash now ids txOk req db otp2 hh he,
    ?_, ?_, ?_, ?_⟩
  · intro hash now ids otp req db d hdev
    simp only [userRegister, hdev, Bool.and_self, Bool.not_true,
      Bool.false_eq_true, if_false]
  · intro hash now tid otp req fp
    exact ⟨rfl, rfl⟩
  · intro hash now newOtp u
    exact ⟨rfl, rfl⟩
  · intro hash now sid newOtp req db d t hdev hev hpv htok hcd
    rw [resendOtp_reduce hash now sid true newOtp req db d t hdev hev hpv
      htok]
    simp only [if_neg hcd, Bool.not_true, Bool.false_eq_true, if_false]

/-- Closed instantiation of `otp_compared_by_hash_yet_persisted_plaintext`
at concrete stores and codes. -/
theorem otp_compared_by_hash_yet_persisted_plaintext_witness :
    (verification (fun _ => "k") 100000 vids0 true vreq0 db0 =
        verification (fun _ => "k") 100000 vids0 true
          { vreq0 with otp := "222222" } db0)
    ∧ ((userRegister hashModel 0 gids0 true true "123456" greq0
          dbEmpty).1.tokens =
        dbEmpty.tokens ++
          [freshToken hashModel 0 gids0.tokenId "123456" greq0
            dev0.deviceFingerprint])
    ∧ ((freshToken hashModel 0 "t9" "123456" greq0 "fp").token = "123456"
       ∧ (freshToken hashModel 0 "t9" "123456" greq0 "fp").tokenHash =
          hashModel "123456")
    ∧ ((rotateToken hashModel 130000 "654321" tok0).token = "654321"
       ∧ (rotateToken hashModel 130000 "654321" tok0).tokenHash =
          hashModel "654321")
    ∧ ((resendOtp hashModel 130000 "s1" true "654321" rreq0 db0).1.tokens =
        db0.tokens.map fun u =>
          if u.id == tok0.id then rotateToken hashModel 130000 "654321" u
          else u) :=
  ⟨otp_compared_by_hash_yet_persisted_plaintext.1 (fun _ => "k") 100000
      vids0 true vreq0 db0 "222222" rfl rfl,
   otp_compared_by_hash_yet_persisted_plaintext.2.1 hashModel 0 gids0
      "123456" greq0 dbEmpty dev0 rfl,
   otp_compared_by_hash_yet_persisted_plaintext.2.2.1 hashModel 0 "t9"
      "123456" greq0 "fp",
   otp_compared_by_hash_yet_persisted_plaintext.2.2.2.1 hashModel 130000
      "654321" tok0,
   otp_compared_by_hash_yet_persisted_plaintext.2.2.2.2 hashModel 130000
      "s1" "654321" rreq0 db0 dev0 tok0 rfl rfl rfl (by decide)
      (by decide)⟩

/-- **C6.** Every resend request arriving strictly before the token's
`createdAt + 2` minutes fails `CooldownActive` carrying
`retryAfter = createdAt + COOLDOWN_PERIOD`, and returns the store
completely unchanged — the token row, and every other table, is exactly
as before, whatever the dispatch outcome and whatever code the generator
produced. -/
theorem resend_cooldown_rejects_unchanged
    (hash : String → String) (now : Nat) (sid : String)
    (dispatchOk : Bool) (newOtp : String) (req : ResendReq) (db : Db)
    (d : Device) (t : Token)
    (hdev : deviceValidation now db req.deviceId = .ok d)
    (hev : emailValidation now db (some req.email) = .ok ())
    (hpv : phoneValidation now db (some req.phone) = .ok ())
    (htok : findByCustomerAndDetails db.tokens req.phone req.email
      req.deviceId = some t)
    (hcd : now < t.createdAt + COOLDOWN_PERIOD) :
    resendOtp hash now sid dispatchOk newOtp req db =
      (db, .error (.cooldownActive (t.createdAt + COOLDOWN_PERIOD))) := by
  rw [resendOtp_reduce hash now sid dispatchOk newOtp req db d t hdev hev
    hpv htok]
  have h120 : COOLDOWN_PERIOD = 120000 := rfl
  rw [if_pos (by omega)]

/-- Closed instantiation of `resend_cooldown_rejects_unchanged` one
minute after token creation. -/
theorem resend_cooldown_rejects_unchanged_witness :
    resendOtp hashModel 60000 "s1" true "999999" rreq0 db0 =
      (db0, .error (.cooldownActive (tok0.createdAt + COOLDOWN_PERIOD))) :=
  resend_cooldown_rejects_unchanged hashModel 60000 "s1" true "999999"
    rreq0 db0 dev0 tok0 rfl rfl rfl (by decide) (by decide)

/-- **C7 counterexample.** A resend request arriving after the cooldown
window and passing the validators and lookup does *not* rotate the token
when the external OTP dispatch fails: it errors `NotificationFailed` and
leaves the store unchanged, refuting the claim that every such request
rotates the token and answers `{isNew := true}`. -/
theorem resend_dispatch_failure_no_rotation :
    (findByCustomerAndDetails db0.tokens rreq0.phone rreq0.email
        rreq0.deviceId = some tok0)
    ∧ tok0.createdAt + COOLDOWN_PERIOD ≤ 130000
    ∧ resendOtp hashModel 130000 "s1" false "654321" rreq0 db0 =
        (db0, .error .notificationFailed) :=
  ⟨by decide, by decide, rfl⟩

/-- **C7 amended.** Every resend request arriving at or after the
token's `createdAt + 2` minutes, passing the validators and lookup, and
whose OTP dispatch succeeds, rotates the token in place: the same rows
in the same order (in particular the same ids, and no second token row)
with the matching row receiving the fresh code's hash, `attempts := 0`
and `expiresAt = now + 5` minutes; the response is
`{isNew := true, expiresAt := now + 5 min}`. -/
theorem resend_rotates_in_place
    (hash : String → String) (now : Nat) (sid : String) (newOtp : String)
    (req : ResendReq) (db : Db) (d : Device) (t : Token)
    (hdev : deviceValidation now db req.deviceId = .ok d)
    (hev : emailValidation now db (some req.email) = .ok ())
    (hpv : phoneValidation now db (some req.phone) = .ok ())
    (htok : findByCustomerAndDetails db.tokens req.phone req.email
      req.deviceId = some t)
    (hcd : t.createdAt + COOLDOWN_PERIOD ≤ now) :
    ((resendOtp hash now sid true newOtp req db).1.tokens =
        db.tokens.map fun u =>
          if u.id == t.id then rotateToken hash now newOtp u else u)
    ∧ ((resendOtp hash now sid true newOtp req db).1.tokens.map Token.id =
        db.tokens.map Token.id)
    ∧ ((rotateToken hash now newOtp t).id = t.id
       ∧ (rotateToken hash now newOtp t).tokenHash = hash newOtp
       ∧ (rotateToken hash now newOtp t).attempts = 0
       ∧ (rotateToken hash now newOtp t).expiresAt = now + OTP_EXPIRY_TIME)
    ∧ (resendOtp hash now sid true newOtp req db).2 =
        .ok { isNew := true, expiresAt := now + OTP_EXPIRY_TIME } := by
  have hred := resendOtp_reduce hash now sid true newOtp req db d t hdev
    hev hpv htok
  rw [if_neg (by omega)] at hred
  simp only [Bool.not_true, Bool.false_eq_true, if_false] at hred
  refine ⟨by rw [hred], ?_, ⟨rfl, rfl, rfl, rfl⟩, by rw [hred]⟩
  rw [hred]
  show (db.tokens.map fun u =>
    if u.id == t.id then rotateToken hash now newOtp u else u).map Token.id
    = db.tokens.map Token.id
  rw [List.map_map]
  refine List.map_congr_left fun u hu => ?_
  by_cases h : u.id = t.id
  · simp [h, rotateToken]
  · simp [h]

/-- Closed instantiation of `resend_rotates_in_place` ten seconds after
the cooldown has elapsed. -/
theorem resend_rotates_in_place_witness :
    ((resendOtp hashModel 130000 "s1" true "654321" rreq0 db0).1.tokens =
        db0.tokens.map fun u =>
          if u.id == tok0.id then rotateToken hashModel 130000 "654321" u
          else u)
    ∧ ((resendOtp hashModel 130000 "s1" true "654321" rreq0
          db0).1.tokens.map Token.id = db0.tokens.map Token.id)
    ∧ ((rotateToken hashModel 130000 "654321" tok0).id = tok0.id
       ∧ (rotateToken hashModel 130000 "654321" tok0).tokenHash =
          hashModel "654321"
       ∧ (rotateToken hashModel 130000 "654321" tok0).attempts = 0
       ∧ (rotateToken hashModel 130000 "654321" tok0).expiresAt =
          130000 + OTP_EXPIRY_TIME)
    ∧ (resendOtp hashModel 130000 "s1" true "654321" rreq0 db0).2 =
        .ok { isNew := true, expiresAt := 130000 + OTP_EXPIRY_TIME } :=
  resend_rotates_in_place hashModel 130000 "s1" "654321" rreq0 db0 dev0
    tok0 rfl rfl rfl (by decide) (by decide)

/-- **C8.** On every verify request whose submitted code's hash differs
from the active token's `tokenHash` (with `attempts < maxAttempts`), the
engine increments that token's `attempts` by one, appends a
RegistrationAttempt with `action = "verify_otp"`, `result = "failed"`,
`reason = "Invalid OTP"`, and fails `InvalidOtp` — the two writes are in
the returned store even though the request errors, for either value of
the transaction flag. -/
theorem verification_invalid_otp_durable_writes
    (hash : String → String) (now : Nat) (ids : VerifyIds) (txOk : Bool)
    (req : VerifyReq) (db : Db) (d : Device) (t : Token)
    (hm : missingVerifyParams req = false)
    (hdev : deviceValidation now db req.deviceId = .ok d)
    (hpv : phoneValidation now db req.phone = .ok ())
    (hev : emailValidation now db req.email = .ok ())
    (htok : findActiveToken now db.tokens req.phone req.email req.deviceId
      = some t)
    (hatt : t.attempts < t.maxAttempts)
    (hmis : (hash req.otp == t.tokenHash) = false) :
    (verification hash now ids txOk req db =
      ({ db with
          tokens := db.tokens.map fun u =>
            if u.id == t.id then { u with attempts := u.attempts + 1 }
            else u,
          attempts := db.attempts ++
            [invalidOtpAttempt ids.failAttemptId req] },
       .error .invalidOtp))
    ∧ (invalidOtpAttempt ids.failAttemptId req).action = "verify_otp"
    ∧ (invalidOtpAttempt ids.failAttemptId req).result = "failed"
    ∧ (invalidOtpAttempt ids.failAttemptId req).reason =
        some "Invalid OTP" := by
  refine ⟨?_, rfl, rfl, rfl⟩
  simp only [verification, hm, Bool.false_eq_true, if_false, hdev, hpv,
    hev, htok, hmis, if_neg (Nat.not_le.mpr hatt)]

/-- Closed instantiation of `verification_invalid_otp_durable_writes`
with a wrong code against the fixture token. -/
theorem verification_invalid_otp_durable_writes_witness :
    (verification hashModel 100000 vids0 true
        { vreq0 with otp := "222222" } db0 =
      ({ db0 with
          tokens := db0.tokens.map fun u =>
            if u.id == tok0.id then { u with attempts := u.attempts + 1 }
            else u,
          attempts := db0.attempts ++
            [invalidOtpAttempt vids0.failAttemptId
              { vreq0 with otp := "222222" }] },
       .error .invalidOtp))
    ∧ (invalidOtpAttempt vids0.failAttemptId
        { vreq0 with otp := "222222" }).action = "verify_otp"
    ∧ (invalidOtpAttempt vids0.failAttemptId
        { vreq0 with otp := "222222" }).result = "failed"
    ∧ (invalidOtpAttempt vids0.failAttemptId
        { vreq0 with otp := "222222" }).reason = some "Invalid OTP" :=
  verification_invalid_otp_durable_writes hashModel 100000 vids0 true
    { vreq0 with otp := "222222" } db0 dev0 tok0 (by decide) rfl rfl rfl
    (by decide) (by decide) (by decide)

/-- **C9.** During registration the OTP dispatch happens strictly before
the database transaction: when either the SMS or the email dispatch
fails, the flow aborts with `NotificationFailed` and the store is
returned exactly as it was — no RegistrationAttempt, RegistrationToken,
SmsEvent or Customer row is created. -/
theorem userRegister_dispatch_failure_no_writes
    (hash : String → String) (now : Nat) (ids : RegisterIds)
    (smsOk emailOk : Bool) (otp : String) (req : RegisterReq) (db : Db)
    (d : Device)
    (hdev : deviceValidation now db req.deviceId = .ok d)
    (hfail : smsOk = false ∨ emailOk = false) :
    userRegister hash now ids smsOk emailOk otp req db =
      (db, .error .notificationFailed) := by
  rcases hfail with rfl | rfl
  · simp [userRegister, hdev]
  · simp [userRegister, hdev]

/-- Closed instantiation of `userRegister_dispatch_failure_no_writes`
with a failing SMS dispatch. -/
theorem userRegister_dispatch_failure_no_writes_witness :
    userRegister hashModel 0 gids0 false true "123456" greq0 dbEmpty =
      (dbEmpty, .error .notificationFailed) :=
  userRegister_dispatch_failure_no_writes hashModel 0 gids0 false true
    "123456" greq0 dbEmpty dev0 rfl (Or.inl rfl)

/-- **C10.** Verifying the correct code against a pending, non-expired,
non-max-attempts token succeeds and marks exactly the matching rows
verified; any subsequent verify request (same identifiers, any submitted
code, any hash function, at any later time) against the updated store
fails the active-token lookup with `TokenNotFoundOrExpired` — the lookup
only matches pending, `verifiedAt`-null, unexpired tokens — and returns
the store unchanged, so the activation never re-runs. -/
theorem verification_verified_exactly_once
    (hash : String → String) (now : Nat) (ids : VerifyIds)
    (req : VerifyReq) (db : Db) (d : Device) (t : Token) (c : Customer)
    (hm : missingVerifyParams req = false)
    (hdev : deviceValidation now db req.deviceId = .ok d)
    (hpv : phoneValidation now db req.phone = .ok ())
    (hev : emailValidation now db req.email = .ok ())
    (htok : findActiveToken now db.tokens req.phone req.email req.deviceId
      = some t)
    (hatt : t.attempts < t.maxAttempts)
    (hhash : hash req.otp = t.tokenHash)
    (hcust : db.customers.find? (fun u => u.id == req.customerId) = some c)
    (huniq : ∀ u ∈ db.tokens,
      activeTokenMatch now req.phone req.email req.deviceId u = true →
      u.id = t.id) :
    ((verification hash now ids true req db).2 =
        .ok { customerId := req.customerId, expiresIn := 3600 })
    ∧ (∀ u ∈ (verification hash now ids true req db).1.tokens,
        u.id = t.id → u.status = "verified" ∧ u.verifiedAt = some now)
    ∧ (∀ (hash2 : String → String) (now2 : Nat) (ids2 : VerifyIds)
        (txOk2 : Bool) (otp2 : String), now ≤ now2 → (otp2 == "") = false →
        verification hash2 now2 ids2 txOk2 { req with otp := otp2 }
            (verification hash now ids true req db).1 =
          ((verification hash now ids true req db).1,
           .error .tokenNotFoundOrExpired)) := by
  have hred : verification hash now ids true req db =
      (applyActivation now ids req t.id db,
       .ok { customerId := req.customerId, expiresIn := 3600 }) := by
    simpa using verification_success_eq hash now ids req db d t c hm hdev
      hpv hev htok hatt hhash hcust true
  refine ⟨by rw [hred], ?_, ?_⟩
  · intro u hu hid
    rw [hred] at hu
    simp only [applyActivation, List.mem_map] at hu
    obtain ⟨v, hv, rfl⟩ := hu
    by_cases h : v.id = t.id
    · simp [h]
    · simp [beq_iff_eq, h] at hid ⊢
  · intro hash2 now2 ids2 txOk2 otp2 hle hotp2
    rw [hred]
    have hm2 : missingVerifyParams { req with otp := otp2 } = false := by
      simp only [missingVerifyParams, Bool.or_eq_false_iff] at hm ⊢
      exact ⟨⟨hotp2, hm.1.2⟩, hm.2⟩
    have hdev2 : deviceValidation now2 (applyActivation now ids req t.id db)
        req.deviceId = .ok d :=
      deviceValidation_ok_mono now now2 db _ req.deviceId d hle rfl rfl hdev
    have hpv2 : phoneValidation now2 (applyActivation now ids req t.id db)
        req.phone = .ok () :=
      phoneValidation_ok_mono now now2 db _ req.phone hle rfl hpv
    have hev2 : emailValidation now2 (applyActivation now ids req t.id db)
        req.email = .ok () :=
      emailValidation_ok_mono now now2 db _ req.email hle rfl hev
    have hlook : findActiveToken now2
        (applyActivation now ids req t.id db).tokens req.phone req.email
        req.deviceId = none := by
      apply latestCreated_none
      intro u hu
      simp only [applyActivation, List.mem_map] at hu
      obtain ⟨v, hv, rfl⟩ := hu
      by_cases hid : v.id = t.id
      · simp [hid, activeTokenMatch]
      · have hif : (if v.id == t.id then
            { v with verifiedAt := some now, status := "verified" }
            else v) = v := by simp [beq_iff_eq, hid]
        rw [hif]
        cases hcase : activeTokenMatch now2 req.phone req.email
            req.deviceId v with
        | false => rfl
        | true =>
          exact absurd
            (huniq v hv (activeTokenMatch_mono now now2 req.phone req.email
              req.deviceId v hle hcase)) hid
    simp only [verification, hm2, Bool.false_eq_true, if_false, hdev2,
      hpv2, hev2, hlook]

/-- Closed instantiation of `verification_verified_exactly_once`: after
the successful verify at time 100000, a second verify at time 200000
against the updated store fails the lookup and changes nothing. -/
theorem verification_verified_exactly_once_witness :
    ((verification hashModel 100000 vids0 true vreq0 db0).2 =
        .ok { customerId := vreq0.customerId, expiresIn := 3600 })
    ∧ (verification hashModel 200000 vids0 true
          { vreq0 with otp := "111111" }
          (verification hashModel 100000 vids0 true vreq0 db0).1 =
        ((verification hashModel 100000 vids0 true vreq0 db0).1,
         .error .tokenNotFoundOrExpired)) := by
  have h := verification_verified_exactly_once hashModel 100000 vids0
    vreq0 db0 dev0 tok0 cust0 (by decide) rfl rfl rfl (by decide)
    (by decide) rfl (by decide) (by decide)
  exact ⟨h.1, h.2.2 hashModel 200000 vids0 true "111111" (by decide)
    (by decide)⟩

end Dossh
